import Mathlib

/-!
Shallow embedding of the max2sc analyzer and codegen functions that the
specification's claims talk about, together with theorems settling those
claims.

Conventions of the embedding:
* Rust `f32` values are modelled as exact rationals (`ℚ`); the functions
  under study only compare, add, subtract and divide, and no claim depends
  on rounding behaviour.
* Rust `u32`/`u64` values are modelled as `ℕ`.  An explicit `as u32` cast
  (defined truncation in Rust) is modelled as `% 2^32`; arithmetic overflow
  of `+`/`pow` (which panics in debug builds) is outside the model.
* `serde_json::Value` is modelled by `JsonValue`, with JSON numbers split
  into those representable as `u64` (constructor `uint`) and all the other
  numbers (`numOther`), mirroring exactly what `Value::as_u64` observes.
* `Vec` is `List`; struct and function names follow the Rust source.
-/

namespace Max2SC

/-- Model of `serde_json::Value` as seen by `parse_connection_endpoint`:
`as_str` succeeds exactly on `str`, `as_u64` exactly on `uint`. -/
inductive JsonValue where
  | str (s : String)
  | uint (n : Nat)
  | numOther
  | jbool (b : Bool)
  | jnull
  | arr (xs : List JsonValue)
  | obj

/-- Rust `serde_json::Value::as_str`. -/
def JsonValue.as_str : JsonValue → Option String
  | .str s => some s
  | _ => none

/-- Rust `serde_json::Value::as_u64`. -/
def JsonValue.as_u64 : JsonValue → Option Nat
  | .uint n => some n
  | _ => none

/-- Rust `BoxContent` fields of `max2sc_max_types` used by the graph builder
(the `BoxContainer` wrapper is flattened away). -/
structure BoxContent where
  id : String
  maxclass : String
  text : Option String
  numinlets : Nat
  numoutlets : Nat
  patching_rect : Option (List ℚ)
deriving DecidableEq, Repr

/-- A patch line (the `PatchLineContainer` wrapper is flattened away). -/
structure Patchline where
  source : JsonValue
  destination : JsonValue

structure Patcher where
  boxes : List BoxContent
  lines : List Patchline

structure MaxPatch where
  patcher : Patcher

/-- Rust `max2sc_analyzer::graph::AudioNode`. -/
structure AudioNode where
  id : String
  object_type : String
  text : Option String
  num_inlets : Nat
  num_outlets : Nat
  position : Option (List ℚ)
deriving DecidableEq, Repr

instance : Inhabited AudioNode :=
  ⟨{ id := "", object_type := "", text := none, num_inlets := 0,
     num_outlets := 0, position := none }⟩

/-- Rust `max2sc_analyzer::graph::ConnectionType`. -/
inductive ConnectionType where
  | Audio
  | Control
  | Message
  | Unknown
deriving DecidableEq, Repr

/-- Rust `max2sc_analyzer::graph::AudioConnection`. -/
structure AudioConnection where
  source_outlet : Nat
  dest_inlet : Nat
  connection_type : ConnectionType
deriving DecidableEq, Repr

/-- One directed edge of the petgraph `Graph`: endpoints are node indices
in insertion order. -/
structure GraphEdge where
  source : Nat
  dest : Nat
  conn : AudioConnection
deriving DecidableEq, Repr

/-- The petgraph `Graph<AudioNode, AudioConnection, Directed>`: nodes in
insertion order (indices `0, 1, ...`) and edges in insertion order. -/
structure SignalFlowGraph where
  nodes : List AudioNode
  edges : List GraphEdge
deriving DecidableEq, Repr

/-- Rust `max2sc_analyzer::AnalysisError` (only the variant the graph builder
produces). -/
inductive AnalysisError where
  | invalidRouting
deriving DecidableEq, Repr

/-- Rust `str::contains(char)`: whether the character occurs in the string
(defined over the character list so that it evaluates by `rfl`). -/
def textContains (s : String) (c : Char) : Bool := s.data.contains c

/-- Rust `str::starts_with(pat)`: whether `pat` is a prefix of `s` (defined
over the character lists so that it evaluates by `rfl`). -/
def textStartsWith (s pat : String) : Bool := pat.data.isPrefixOf s.data

/-- Rust `parse_connection_endpoint`: an endpoint must be a JSON array with at
least two elements (`array.len() >= 2`), whose first element is a string
and whose second is a `u64` number; the port is cast `as u32`. -/
def parse_connection_endpoint : JsonValue → Except AnalysisError (String × Nat)
  | .arr (a :: b :: _) =>
      match a.as_str with
      | none => .error .invalidRouting
      | some id =>
          match b.as_u64 with
          | none => .error .invalidRouting
          | some port => .ok (id, port % 2 ^ 32)
  | _ => .error .invalidRouting

/-- Rust `determine_connection_type` (outlet/inlet arguments are unused in the
source as well). -/
def determine_connection_type (source_node dest_node : AudioNode)
    (_source_outlet _dest_inlet : Nat) : ConnectionType :=
  let source_text := source_node.text.getD ""
  let dest_text := dest_node.text.getD ""
  if source_node.object_type = "flonum" ∨ source_node.object_type = "slider" ∨
      source_node.object_type = "dial" ∨ source_node.object_type = "number" then
    ConnectionType.Control
  else
    let source_is_audio := textContains source_text '~' || textStartsWith source_text "spat5"
    let dest_is_audio := textContains dest_text '~' || textStartsWith dest_text "spat5"
    if source_is_audio && dest_is_audio then
      ConnectionType.Audio
    else if source_node.object_type = "newobj" &&
        (textStartsWith source_text "line" || textStartsWith source_text "ramp") then
      ConnectionType.Control
    else if source_is_audio || dest_is_audio then
      ConnectionType.Control
    else
      ConnectionType.Message

/-- The id → node-index mapping built in the first pass.  `HashMap::insert`
overwrites, so a later box with the same id wins. -/
def lookupNode : List BoxContent → Nat → String → Option Nat
  | [], _, _ => none
  | b :: rest, i, s =>
      match lookupNode rest (i + 1) s with
      | some v => some v
      | none => if b.id = s then some i else none

/-- The `AudioNode` built from one box in the first pass. -/
def nodeOfBox (c : BoxContent) : AudioNode :=
  { id := c.id, object_type := c.maxclass, text := c.text,
    num_inlets := c.numinlets, num_outlets := c.numoutlets,
    position := c.patching_rect }

/-- Second pass of `build_signal_flow_graph`: resolve each patch line and
append an edge; the `unwrap` on `node_weight` is safe in the source because
map indices point into the graph, modelled here with `getD`. -/
def addEdges (nodes : List AudioNode) (nmap : String → Option Nat) :
    List Patchline → Except AnalysisError (List GraphEdge)
  | [] => .ok []
  | l :: rest =>
      match parse_connection_endpoint l.source with
      | .error e => .error e
      | .ok (source_id, source_outlet) =>
          match parse_connection_endpoint l.destination with
          | .error e => .error e
          | .ok (dest_id, dest_inlet) =>
              match nmap source_id with
              | none => .error .invalidRouting
              | some source_idx =>
                  match nmap dest_id with
                  | none => .error .invalidRouting
                  | some dest_idx =>
                      match addEdges nodes nmap rest with
                      | .error e => .error e
                      | .ok es =>
                          .ok ({ source := source_idx, dest := dest_idx,
                                 conn := { source_outlet := source_outlet,
                                           dest_inlet := dest_inlet,
                                           connection_type :=
                                             determine_connection_type
                                               (nodes.getD source_idx default)
                                               (nodes.getD dest_idx default)
                                               source_outlet dest_inlet } } :: es)

/-- Rust `build_signal_flow_graph`. -/
def build_signal_flow_graph (patch : MaxPatch) :
    Except AnalysisError SignalFlowGraph :=
  let nodes := patch.patcher.boxes.map nodeOfBox
  let nmap := lookupNode patch.patcher.boxes 0
  match addEdges nodes nmap patch.patcher.lines with
  | .ok es => .ok { nodes := nodes, edges := es }
  | .error e => .error e

/-- Rust `is_audio_generator`. -/
def is_audio_generator (node : AudioNode) : Bool :=
  let text := node.text.getD ""
  if node.object_type = "newobj" then
    textStartsWith text "cycle~" || textStartsWith text "noise~" ||
    textStartsWith text "adc~" || textStartsWith text "mc.adc~" ||
    textStartsWith text "phasor~" || textStartsWith text "saw~" ||
    textStartsWith text "tri~" || textStartsWith text "rect~"
  else
    false

/-- Rust `is_audio_sink`. -/
def is_audio_sink (node : AudioNode) : Bool :=
  let text := node.text.getD ""
  if node.object_type = "newobj" then
    textStartsWith text "dac~" || textStartsWith text "mc.dac~" ||
    textStartsWith text "spat5.panoramix~" || textStartsWith text "spat5.spat~"
  else
    false

/-- Whether node `i` has an incoming `Audio` edge. -/
def hasIncomingAudio (g : SignalFlowGraph) (i : Nat) : Bool :=
  g.edges.any fun e =>
    e.dest == i && e.conn.connection_type == ConnectionType.Audio

/-- Whether node `i` has an outgoing `Audio` edge. -/
def hasOutgoingAudio (g : SignalFlowGraph) (i : Nat) : Bool :=
  g.edges.any fun e =>
    e.source == i && e.conn.connection_type == ConnectionType.Audio

/-- Rust `get_audio_sources`: audio generators with no incoming audio edge,
in node-index order. -/
def get_audio_sources (g : SignalFlowGraph) : List Nat :=
  (List.range g.nodes.length).filter fun i =>
    is_audio_generator (g.nodes.getD i default) && !hasIncomingAudio g i

/-- Rust `get_audio_sinks`: audio sinks with no outgoing audio edge, in
node-index order. -/
def get_audio_sinks (g : SignalFlowGraph) : List Nat :=
  (List.range g.nodes.length).filter fun i =>
    is_audio_sink (g.nodes.getD i default) && !hasOutgoingAudio g i

/-- Rust `max2sc_core::SphericalCoord` (degrees / degrees / metres). -/
structure SphericalCoord where
  azimuth : ℚ
  elevation : ℚ
  distance : ℚ
deriving DecidableEq, Repr

/-- Rust `max2sc_analyzer::spatial_analysis::Speaker`. -/
structure Speaker where
  id : Nat
  position : SphericalCoord
  delay : ℚ
  gain : ℚ
deriving DecidableEq, Repr

instance : Inhabited Speaker :=
  ⟨{ id := 0, position := ⟨0, 0, 0⟩, delay := 0, gain := 0 }⟩

/-- Rust `max2sc_analyzer::spatial_analysis::SpeakerArrayType`. -/
inductive SpeakerArrayType where
  | Ring (radius : ℚ)
  | Wfs (length spacing : ℚ)
  | Irregular
deriving DecidableEq, Repr

/-- Rust `max2sc_analyzer::spatial_analysis::WfsConfig`. -/
structure WfsConfig where
  prefilter_cutoff : ℚ
  distance_compensation : Bool
  amplitude_correction : Bool
  aliasing_frequency : ℚ
deriving DecidableEq, Repr

/-- Rust `max2sc_analyzer::spatial_analysis::SpeakerArray`. -/
structure SpeakerArray where
  id : String
  array_type : SpeakerArrayType
  speakers : List Speaker
  wfs_config : Option WfsConfig
deriving DecidableEq, Repr

/-- Rust `max2sc_analyzer::spatial_analysis::SpatialObjectType`. -/
inductive SpatialObjectType where
  | Panoramix
  | HoaEncoder (order : Nat)
  | HoaDecoder (order : Nat)
  | Vbap (num_speakers : Nat)
  | Generic (s : String)
deriving DecidableEq, Repr

/-- Rust `max2sc_core::AudioFormat`. -/
inductive AudioFormat where
  | Mono
  | Stereo
  | Multichannel (n : Nat)
  | Ambisonic (order dimension : Nat)
deriving DecidableEq, Repr

/-- Rust `max2sc_analyzer::spatial_analysis::SpatialParameter`. -/
structure SpatialParameter where
  name : String
  value : ℚ
  range : ℚ × ℚ
deriving DecidableEq, Repr

/-- Rust `max2sc_analyzer::spatial_analysis::SpatialObject`. -/
structure SpatialObject where
  id : String
  object_type : SpatialObjectType
  inputs : Nat
  outputs : Nat
  format : AudioFormat
  parameters : List SpatialParameter
deriving DecidableEq, Repr

/-- Rust `max2sc_analyzer::spatial_analysis::SpatialProcessingMethod`. -/
inductive SpatialProcessingMethod where
  | Stereo
  | Vbap
  | Hoa
  | Wfs
deriving DecidableEq, Repr

/-- Rust `max2sc_analyzer::spatial_analysis::SpatialConfig`. -/
structure SpatialConfig where
  spatial_objects : List SpatialObject
  speaker_arrays : List SpeakerArray
  processing_method : SpatialProcessingMethod
deriving DecidableEq, Repr

/-- Rust `determine_processing_method`: the `match` on
`(has_wfs_array, has_hoa, max_speakers)` in the source is the priority
chain Wfs / Hoa / Vbap (when `n >= 4`) / Stereo. -/
def determine_processing_method (config : SpatialConfig) :
    SpatialProcessingMethod :=
  let has_wfs_array := config.speaker_arrays.any fun array =>
    match array.array_type with
    | .Wfs _ _ => true
    | _ => false
  let has_hoa := config.spatial_objects.any fun obj =>
    match obj.object_type with
    | .HoaEncoder _ => true
    | .HoaDecoder _ => true
    | _ => false
  let max_speakers : ℕ :=
    (config.speaker_arrays.map fun array => array.speakers.length).foldr max 0
  if has_wfs_array then SpatialProcessingMethod.Wfs
  else if has_hoa then SpatialProcessingMethod.Hoa
  else if 4 ≤ max_speakers then SpatialProcessingMethod.Vbap
  else SpatialProcessingMethod.Stereo

/-- Rust `calculate_average_distance`.  (In the source an empty list gives a
`0.0 / 0.0` NaN; with `ℚ` division by zero this is `0`.  All call sites
guard the length, so the two models agree on every reachable input.) -/
def calculate_average_distance (speakers : List Speaker) : ℚ :=
  (speakers.map fun s => s.position.distance).sum / speakers.length

/-- Rust `is_linear_array`: at least 3 speakers and every elevation strictly
within 10 degrees of the mean elevation. -/
def is_linear_array (speakers : List Speaker) : Bool :=
  if speakers.length < 3 then
    false
  else
    let avg_elevation :=
      (speakers.map fun s => s.position.elevation).sum / speakers.length
    speakers.all fun s => decide (|s.position.elevation - avg_elevation| < 10)

/-- Rust `is_circular_array`: every distance strictly within 0.5 m of the mean
distance. -/
def is_circular_array (speakers : List Speaker) : Bool :=
  let avg_distance := calculate_average_distance speakers
  speakers.all fun s => decide (|s.position.distance - avg_distance| < 1/2)

/-- The fold `fold(f32::INFINITY, min)` of the source on a nonempty list
is the minimum of the list; the empty case is unreachable at its call
sites (length at least 16). -/
def listMinQ : List ℚ → ℚ
  | [] => 0
  | a :: rest => rest.foldl min a

/-- The fold `fold(f32::NEG_INFINITY, max)` of the source on a nonempty
list is the maximum of the list. -/
def listMaxQ : List ℚ → ℚ
  | [] => 0
  | a :: rest => rest.foldl max a

/-- Degrees to radians.  `f32::to_radians` multiplies by `π / 180`; since
`π` is irrational, the rational model uses the `f32` value of `π`.  No
claim inspects a value computed through this function. -/
def to_radians (x : ℚ) : ℚ := x * (13176795 / 4194304) / 180

/-- Rust `calculate_array_length`. -/
def calculate_array_length (speakers : List Speaker) : ℚ :=
  let angles := speakers.map fun s => s.position.azimuth
  let min_angle := listMinQ angles
  let max_angle := listMaxQ angles
  let avg_distance := calculate_average_distance speakers
  avg_distance * to_radians (max_angle - min_angle)

/-- Insertion of one element into a sorted list of rationals. -/
def insertSorted (x : ℚ) : List ℚ → List ℚ
  | [] => [x]
  | y :: ys => if x ≤ y then x :: y :: ys else y :: insertSorted x ys

/-- Rust `Vec::sort_by(partial_cmp)` on rationals: insertion sort into
ascending order. -/
def sortQ : List ℚ → List ℚ
  | [] => []
  | x :: xs => insertSorted x (sortQ xs)

/-- Rust `calculate_speaker_spacing`. -/
def calculate_speaker_spacing (speakers : List Speaker) : ℚ :=
  if speakers.length < 2 then 0
  else
    let angles := sortQ (speakers.map fun s => s.position.azimuth)
    let total_span := (angles.getLastD 0) - (angles.headD 0)
    let avg_distance := calculate_average_distance speakers
    avg_distance * to_radians (total_span / (speakers.length - 1 : ℕ))

/-- Rust `determine_array_type`: Wfs check first (≥16 speakers and linear),
then Ring (≥4 speakers and circular, radius = mean distance), else
Irregular. -/
def determine_array_type (speakers : List Speaker) : SpeakerArrayType :=
  if decide (16 ≤ speakers.length) && is_linear_array speakers then
    SpeakerArrayType.Wfs (calculate_array_length speakers)
      (calculate_speaker_spacing speakers)
  else if decide (4 ≤ speakers.length) && is_circular_array speakers then
    SpeakerArrayType.Ring (calculate_average_distance speakers)
  else
    SpeakerArrayType.Irregular

/-- Rust `max2sc_codegen::converters::vbap::VbapValidationResult`. -/
structure VbapValidationResult where
  is_valid : Bool
  warnings : List String
  errors : List String
  optimal_spread : ℚ
deriving DecidableEq, Repr

/-- Rust `f32 % f32` (remainder with truncated division, the sign follows
the dividend), on rationals. -/
def fmodTrunc (x y : ℚ) : ℚ :=
  x - y * ((if 0 ≤ x / y then ⌊x / y⌋ else ⌈x / y⌉) : ℤ)

/-- Rust `calculate_optimal_spread`: mean angular gap over azimuth-sorted
speakers, including the wrap-around gap `(360 + first - last) % 360`. -/
def calculate_optimal_spread (array : SpeakerArray) : ℚ :=
  if array.speakers.length < 2 then 0
  else
    let angles := sortQ (array.speakers.map fun s => s.position.azimuth)
    let consecutive := (angles.zip angles.tail).map fun p => p.2 - p.1
    let total_spacing :=
      consecutive.sum + fmodTrunc (360 + angles.headD 0 - angles.getLastD 0) 360
    total_spacing / array.speakers.length

/-- The warning text for one close pair of speakers.  (The interpolated
`{:.1}`-formatted angle of the source message is not modelled; no claim
inspects the text.) -/
def closePairWarning (i j : Nat) : String :=
  "Speakers " ++ toString i ++ " and " ++ toString j ++ " are very close"

/-- The double loop of `validate_speaker_setup` over `enumerate`d speaker
pairs, skipping `i >= j`, warning when the azimuth difference is under
10 degrees. -/
def closePairsWarnings (speakers : List Speaker) : List String :=
  ((List.range speakers.length).map fun i =>
    (List.range speakers.length).filterMap fun j =>
      if i < j then
        if |(speakers.getD i default).position.azimuth -
            (speakers.getD j default).position.azimuth| < 10 then
          some (closePairWarning i j)
        else none
      else none).flatten

/-- Rust `validate_speaker_setup`. -/
def validate_speaker_setup (array : SpeakerArray) : VbapValidationResult :=
  if array.speakers.length < 3 then
    { is_valid := false, warnings := [],
      errors := ["VBAP requires at least 3 speakers"], optimal_spread := 0 }
  else
    { is_valid := true, warnings := closePairsWarnings array.speakers,
      errors := [], optimal_spread := calculate_optimal_spread array }

mutual

/-- Rust `max2sc_core::SCValue`. -/
inductive SCValue where
  | float (q : ℚ)
  | int (z : ℤ)
  | strv (s : String)
  | sym (s : String)
  | arrv (xs : List SCValue)
  | objv (o : SCObject)

/-- Rust `max2sc_core::SCObject`. -/
inductive SCObject where
  | mk (class_name : String) (args : List SCValue) (method : Option String)
      (properties : List (String × SCValue))

end

/-- The `properties` field of an `SCObject`. -/
def SCObject.properties : SCObject → List (String × SCValue)
  | .mk _ _ _ p => p

/-- The `class_name` field of an `SCObject`. -/
def SCObject.class_name : SCObject → String
  | .mk c _ _ _ => c

/-- Rust `max2sc_codegen::converters::hoa::HoaValidationResult`. -/
structure HoaValidationResult where
  is_valid : Bool
  warnings : List String
  errors : List String
  recommended_order : Nat
deriving DecidableEq, Repr

/-- Rust `calculate_recommended_order`: `((n as f32 / 8.0).sqrt() as u32)`
clamped into `[1, 5]`.  On naturals the truncated square root of `n / 8`
is `Nat.sqrt (n / 8)` (for every real `x ≥ 0`, `⌊√x⌋ = ⌊√⌊x⌋⌋`, and the
`f32` rounding never crosses an integer before the clamp saturates). -/
def calculate_recommended_order (num_speakers : Nat) : Nat :=
  min (max (Nat.sqrt (num_speakers / 8)) 1) 5

/-- Rust `validate_hoa_config`: invalid when `n < (order+1)^2`, a warning when
valid but `n < 2 * (order+1)^2`, and a recommended order from
`calculate_recommended_order`. -/
def validate_hoa_config (order num_speakers : Nat) : HoaValidationResult :=
  let min_speakers := (order + 1) ^ 2
  let recommended_speakers := min_speakers * 2
  let base : HoaValidationResult :=
    { is_valid := decide (min_speakers ≤ num_speakers), warnings := [],
      errors := [], recommended_order := calculate_recommended_order num_speakers }
  if num_speakers < min_speakers then
    { base with errors :=
        ["Order " ++ toString order ++ " requires at least " ++
          toString min_speakers ++ " speakers, but only " ++
          toString num_speakers ++ " available"] }
  else if num_speakers < recommended_speakers then
    { base with warnings :=
        ["Order " ++ toString order ++ " works best with " ++
          toString recommended_speakers ++ " speakers, only " ++
          toString num_speakers ++ " available"] }
  else
    base

instance {ε α : Type} [DecidableEq ε] [DecidableEq α] :
    DecidableEq (Except ε α) := fun a b =>
  match a, b with
  | .ok x, .ok y =>
      if h : x = y then .isTrue (by rw [h])
      else .isFalse (by intro hc; cases hc; exact h rfl)
  | .ok _, .error _ => .isFalse (by intro hc; cases hc)
  | .error _, .ok _ => .isFalse (by intro hc; cases hc)
  | .error x, .error y =>
      if h : x = y then .isTrue (by rw [h])
      else .isFalse (by intro hc; cases hc; exact h rfl)

/-! Concrete patches used to evaluate the graph builder: a `cycle~`, a
`noise~` and a `dac~` box wired audio-to-audio, and the same patch with an
added `flonum` box and a `flonum → cycle~` control line. -/

def boxCycle : BoxContent :=
  { id := "obj-1", maxclass := "newobj", text := some "cycle~ 440",
    numinlets := 2, numoutlets := 1, patching_rect := none }

def boxNoise : BoxContent :=
  { id := "obj-2", maxclass := "newobj", text := some "noise~",
    numinlets := 1, numoutlets := 1, patching_rect := none }

def boxDac : BoxContent :=
  { id := "obj-3", maxclass := "newobj", text := some "dac~",
    numinlets := 2, numoutlets := 0, patching_rect := none }

def boxFlonum : BoxContent :=
  { id := "obj-4", maxclass := "flonum", text := none,
    numinlets := 1, numoutlets := 2, patching_rect := none }

/-- A patch line with two-element `[id, port]` source and destination. -/
def lineOf (s : String) (so : Nat) (d : String) (di : Nat) : Patchline :=
  { source := .arr [.str s, .uint so], destination := .arr [.str d, .uint di] }

def patchC7a : MaxPatch :=
  { patcher := { boxes := [boxCycle, boxNoise, boxDac],
                 lines := [lineOf "obj-1" 0 "obj-3" 0,
                           lineOf "obj-2" 0 "obj-3" 1] } }

def patchC7b : MaxPatch :=
  { patcher := { boxes := [boxCycle, boxNoise, boxDac, boxFlonum],
                 lines := [lineOf "obj-1" 0 "obj-3" 0,
                           lineOf "obj-2" 0 "obj-3" 1,
                           lineOf "obj-4" 0 "obj-1" 0] } }

/-- A single plain box, used by the cable-endpoint counterexamples. -/
def boxPlain : BoxContent :=
  { id := "obj-1", maxclass := "newobj", text := some "cycle~",
    numinlets := 1, numoutlets := 1, patching_rect := none }

/-- A patch whose only cable has a THREE-element source endpoint
`["obj-1", 0, 99]` (so not a two-element array). -/
def patchThreeElem : MaxPatch :=
  { patcher := { boxes := [boxPlain],
                 lines := [{ source := .arr [.str "obj-1", .uint 0, .uint 99],
                             destination := .arr [.str "obj-1", .uint 0] }] } }

/-- A patch whose only cable has a numeric source port that is not a
`u64` (for example `-1` or `0.5`). -/
def patchNonU64Port : MaxPatch :=
  { patcher := { boxes := [boxPlain],
                 lines := [{ source := .arr [.str "obj-1", .numOther],
                             destination := .arr [.str "obj-1", .uint 0] }] } }

/-- A patch whose only cable has the well-formed source port `2^32`,
which the `as u32` cast truncates to `0`. -/
def patchBigPort : MaxPatch :=
  { patcher := { boxes := [boxPlain],
                 lines := [lineOf "obj-1" (2 ^ 32) "obj-1" 0] } }

instance : Inhabited BoxContent :=
  ⟨{ id := "", maxclass := "", text := none, numinlets := 0,
     numoutlets := 0, patching_rect := none }⟩

instance : Inhabited GraphEdge :=
  ⟨{ source := 0, dest := 0,
     conn := { source_outlet := 0, dest_inlet := 0,
               connection_type := .Unknown } }⟩

instance : Inhabited Patchline := ⟨{ source := .obj, destination := .obj }⟩

/-- What the source accepts of a cable endpoint: a JSON array whose first
element is a string, whose second is a `u64` number (any further elements
are ignored), and whose id is present in the id → node mapping. -/
def endpointOkProp (nmap : String → Option Nat) (v : JsonValue) : Prop :=
  ∃ id port rest,
    v = JsonValue.arr (JsonValue.str id :: JsonValue.uint port :: rest) ∧
    nmap id ≠ none

/-- How one built edge corresponds to its cable: endpoints resolved to
in-range node indices whose ids equal the endpoint ids, and the ports
carried over through the `as u32` cast. -/
def edgeMatches (l : Patchline) (e : GraphEdge) (nodes : List AudioNode) : Prop :=
  ∀ sid sport srest did dport drest,
    l.source = JsonValue.arr (JsonValue.str sid :: JsonValue.uint sport :: srest) →
    l.destination = JsonValue.arr (JsonValue.str did :: JsonValue.uint dport :: drest) →
    e.source < nodes.length ∧ (nodes.getD e.source default).id = sid ∧
    e.dest < nodes.length ∧ (nodes.getD e.dest default).id = did ∧
    e.conn.source_outlet = sport % 2 ^ 32 ∧
    e.conn.dest_inlet = dport % 2 ^ 32

/-- The graph the builder produces for `patchC7a`. -/
def graphC7a : SignalFlowGraph :=
  { nodes := [nodeOfBox boxCycle, nodeOfBox boxNoise, nodeOfBox boxDac],
    edges := [{ source := 0, dest := 2,
                conn := { source_outlet := 0, dest_inlet := 0,
                          connection_type := .Audio } },
              { source := 1, dest := 2,
                conn := { source_outlet := 0, dest_inlet := 1,
                          connection_type := .Audio } }] }

/-! Concrete nodes for the connection classifier: a `newobj` whose text
is `line~` (a ramp generator that is also audio-bearing), a `newobj`
`dac~`, a `message` box whose text begins with `line`, and a plain
`message` box. -/

def nodeLineTilde : AudioNode :=
  { id := "n1", object_type := "newobj", text := some "line~ 10",
    num_inlets := 2, num_outlets := 1, position := none }

def nodeDacDst : AudioNode :=
  { id := "n2", object_type := "newobj", text := some "dac~",
    num_inlets := 2, num_outlets := 0, position := none }

def nodeMsgLine : AudioNode :=
  { id := "n3", object_type := "message", text := some "line 0 100",
    num_inlets := 1, num_outlets := 1, position := none }

def nodePlainDst : AudioNode :=
  { id := "n4", object_type := "message", text := some "stop",
    num_inlets := 1, num_outlets := 1, position := none }

def nodeNewobjLine : AudioNode :=
  { id := "n5", object_type := "newobj", text := some "line 0 100",
    num_inlets := 1, num_outlets := 1, position := none }

/-- A speaker at a given azimuth (elevation 0, distance 1 m). -/
def spk (az : ℚ) : Speaker :=
  { id := 0, position := { azimuth := az, elevation := 0, distance := 1 },
    delay := 0, gain := 0 }

def arrTwo : SpeakerArray :=
  { id := "two", array_type := .Irregular,
    speakers := [spk 0, spk 90], wfs_config := none }

def arrThree : SpeakerArray :=
  { id := "three", array_type := .Irregular,
    speakers := [spk 0, spk 90, spk 180], wfs_config := none }

theorem wfs_flag_iff (t : SpeakerArrayType) :
    ((match t with
      | SpeakerArrayType.Wfs _ _ => true
      | _ => false) = true) ↔ ∃ L S, t = SpeakerArrayType.Wfs L S := by
  cases t <;> simp

theorem hoa_flag_iff (t : SpatialObjectType) :
    ((match t with
      | SpatialObjectType.HoaEncoder _ => true
      | SpatialObjectType.HoaDecoder _ => true
      | _ => false) = true) ↔
    (∃ k, t = SpatialObjectType.HoaEncoder k) ∨
    (∃ k, t = SpatialObjectType.HoaDecoder k) := by
  cases t <;> simp

theorem any_wfs_iff (arrays : List SpeakerArray) :
    (arrays.any fun array =>
      match array.array_type with
      | SpeakerArrayType.Wfs _ _ => true
      | _ => false) = true ↔
    ∃ a ∈ arrays, ∃ L S, a.array_type = SpeakerArrayType.Wfs L S := by
  rw [List.any_eq_true]
  refine exists_congr fun a => and_congr_right fun _ => ?_
  cases h : a.array_type <;> simp [h]

theorem any_hoa_iff (objs : List SpatialObject) :
    (objs.any fun obj =>
      match obj.object_type with
      | SpatialObjectType.HoaEncoder _ => true
      | SpatialObjectType.HoaDecoder _ => true
      | _ => false) = true ↔
    ∃ o ∈ objs, (∃ k, o.object_type = SpatialObjectType.HoaEncoder k) ∨
      (∃ k, o.object_type = SpatialObjectType.HoaDecoder k) := by
  rw [List.any_eq_true]
  refine exists_congr fun o => and_congr_right fun _ => ?_
  cases h : o.object_type <;> simp [h]

theorem max_speakers_iff (arrays : List SpeakerArray) :
    4 ≤ (arrays.map fun array => array.speakers.length).foldr max 0 ↔
    ∃ a ∈ arrays, 4 ≤ a.speakers.length := by
  induction arrays with
  | nil => simp
  | cons a t ih => simp [le_max_iff, ih]

/-- C2: `determine_processing_method` picks `Wfs` when some array is
classified Wfs; else `Hoa` when some spatial object is an HOA encoder or
decoder; else `Vbap` when the largest array has at least 4 speakers; else
`Stereo`. -/
theorem c2_determine_processing_method (config : SpatialConfig) :
    (determine_processing_method config = SpatialProcessingMethod.Wfs ↔
      ∃ a ∈ config.speaker_arrays, ∃ L S,
        a.array_type = SpeakerArrayType.Wfs L S) ∧
    (determine_processing_method config = SpatialProcessingMethod.Hoa ↔
      ¬(∃ a ∈ config.speaker_arrays, ∃ L S,
          a.array_type = SpeakerArrayType.Wfs L S) ∧
      ∃ o ∈ config.spatial_objects,
        (∃ k, o.object_type = SpatialObjectType.HoaEncoder k) ∨
        (∃ k, o.object_type = SpatialObjectType.HoaDecoder k)) ∧
    (determine_processing_method config = SpatialProcessingMethod.Vbap ↔
      ¬(∃ a ∈ config.speaker_arrays, ∃ L S,
          a.array_type = SpeakerArrayType.Wfs L S) ∧
      ¬(∃ o ∈ config.spatial_objects,
          (∃ k, o.object_type = SpatialObjectType.HoaEncoder k) ∨
          (∃ k, o.object_type = SpatialObjectType.HoaDecoder k)) ∧
      ∃ a ∈ config.speaker_arrays, 4 ≤ a.speakers.length) ∧
    (determine_processing_method config = SpatialProcessingMethod.Stereo ↔
      ¬(∃ a ∈ config.speaker_arrays, ∃ L S,
          a.array_type = SpeakerArrayType.Wfs L S) ∧
      ¬(∃ o ∈ config.spatial_objects,
          (∃ k, o.object_type = SpatialObjectType.HoaEncoder k) ∨
          (∃ k, o.object_type = SpatialObjectType.HoaDecoder k)) ∧
      ¬(∃ a ∈ config.speaker_arrays, 4 ≤ a.speakers.length)) := by
  have hw := any_wfs_iff config.speaker_arrays
  have hh := any_hoa_iff config.spatial_objects
  have hv := max_speakers_iff config.speaker_arrays
  simp only [← hw, ← hh, ← hv, determine_processing_method]
  by_cases hb1 : (config.speaker_arrays.any fun array =>
      match array.array_type with
      | SpeakerArrayType.Wfs _ _ => true
      | _ => false) = true <;>
  by_cases hb2 : (config.spatial_objects.any fun obj =>
      match obj.object_type with
      | SpatialObjectType.HoaEncoder _ => true
      | SpatialObjectType.HoaDecoder _ => true
      | _ => false) = true <;>
  by_cases hb3 : 4 ≤ (config.speaker_arrays.map fun array =>
      array.speakers.length).foldr max 0 <;>
  simp [hb1, hb2, hb3]

theorem is_linear_array_iff (speakers : List Speaker)
    (h : 3 ≤ speakers.length) :
    is_linear_array speakers = true ↔
    ∀ s ∈ speakers,
      |s.position.elevation -
        (speakers.map fun x => x.position.elevation).sum / speakers.length|
        < 10 := by
  unfold is_linear_array
  rw [if_neg (by omega)]
  simp [List.all_eq_true]

theorem is_circular_array_iff (speakers : List Speaker) :
    is_circular_array speakers = true ↔
    ∀ s ∈ speakers,
      |s.position.distance -
        (speakers.map fun x => x.position.distance).sum / speakers.length|
        < 1/2 := by
  unfold is_circular_array calculate_average_distance
  simp [List.all_eq_true]

/-- C3: `determine_array_type` classifies Wfs when there are at least 16
speakers and every elevation is strictly within 10 degrees of the mean
elevation; otherwise Ring with radius the mean distance when there are at
least 4 speakers and every distance is strictly within 0.5 m of the mean
distance; otherwise Irregular — with the Wfs check tried first, so an
array satisfying both conditions is Wfs. -/
theorem c3_determine_array_type (speakers : List Speaker) :
    determine_array_type speakers =
      if 16 ≤ speakers.length ∧ ∀ s ∈ speakers,
          |s.position.elevation -
            (speakers.map fun x => x.position.elevation).sum /
              speakers.length| < 10 then
        SpeakerArrayType.Wfs (calculate_array_length speakers)
          (calculate_speaker_spacing speakers)
      else if 4 ≤ speakers.length ∧ ∀ s ∈ speakers,
          |s.position.distance -
            (speakers.map fun x => x.position.distance).sum /
              speakers.length| < 1/2 then
        SpeakerArrayType.Ring
          ((speakers.map fun x => x.position.distance).sum / speakers.length)
      else SpeakerArrayType.Irregular := by
  have hA : ((decide (16 ≤ speakers.length) && is_linear_array speakers) = true) ↔
      (16 ≤ speakers.length ∧ ∀ s ∈ speakers,
        |s.position.elevation -
          (speakers.map fun x => x.position.elevation).sum /
            speakers.length| < 10) := by
    rw [Bool.and_eq_true, decide_eq_true_eq]
    constructor
    · rintro ⟨h16, hlin⟩
      exact ⟨h16, (is_linear_array_iff speakers (by omega)).mp hlin⟩
    · rintro ⟨h16, hE⟩
      exact ⟨h16, (is_linear_array_iff speakers (by omega)).mpr hE⟩
  have hB : ((decide (4 ≤ speakers.length) && is_circular_array speakers) = true) ↔
      (4 ≤ speakers.length ∧ ∀ s ∈ speakers,
        |s.position.distance -
          (speakers.map fun x => x.position.distance).sum /
            speakers.length| < 1/2) := by
    rw [Bool.and_eq_true, decide_eq_true_eq, is_circular_array_iff]
  unfold determine_array_type
  simp only [hA, hB, calculate_average_distance]

/-- C4: `validate_hoa_config(order, n)` is invalid exactly when
`n < (order+1)^2`, warns exactly when `n` is at least the minimum but
below twice it, always recommends the order `trunc(sqrt(n/8))` clamped
into `[1, 5]` (on naturals, `Nat.sqrt (n / 8)` clamped), and in
particular `(2, 16)` is valid while `(3, 8)` is invalid. -/
theorem c4_validate_hoa_config (order num_speakers : Nat) :
    ((validate_hoa_config order num_speakers).is_valid = false ↔
      num_speakers < (order + 1) ^ 2) ∧
    ((validate_hoa_config order num_speakers).warnings ≠ [] ↔
      ((order + 1) ^ 2 ≤ num_speakers ∧ num_speakers < (order + 1) ^ 2 * 2)) ∧
    ((validate_hoa_config order num_speakers).recommended_order =
      min (max (Nat.sqrt (num_speakers / 8)) 1) 5) ∧
    (validate_hoa_config 2 16).is_valid = true ∧
    (validate_hoa_config 3 8).is_valid = false := by
  refine ⟨?_, ?_, ?_, by decide, by decide⟩
  all_goals
    by_cases h1 : num_speakers < (order + 1) ^ 2 <;>
      by_cases h2 : num_speakers < (order + 1) ^ 2 * 2 <;>
      simp [validate_hoa_config, calculate_recommended_order, h1, h2,
        Nat.not_le, Nat.not_lt, decide_eq_false_iff_not, decide_eq_true_eq] <;>
      omega

/-- C10: for both validators, `is_valid` holds exactly when the `errors`
list is empty, and `is_valid` is a function of the size inputs alone, so
the warning checks never affect it. -/
theorem c10_is_valid_iff_no_errors (array : SpeakerArray)
    (order num_speakers : Nat) :
    ((validate_speaker_setup array).is_valid = true ↔
      (validate_speaker_setup array).errors = []) ∧
    ((validate_hoa_config order num_speakers).is_valid = true ↔
      (validate_hoa_config order num_speakers).errors = []) ∧
    ((validate_speaker_setup array).is_valid =
      decide (3 ≤ array.speakers.length)) ∧
    ((validate_hoa_config order num_speakers).is_valid =
      decide ((order + 1) ^ 2 ≤ num_speakers)) := by
  refine ⟨?_, ?_, ?_, ?_⟩
  · by_cases h : array.speakers.length < 3 <;> simp [validate_speaker_setup, h]
  · by_cases h1 : num_speakers < (order + 1) ^ 2 <;>
      by_cases h2 : num_speakers < (order + 1) ^ 2 * 2 <;>
      simp [validate_hoa_config, h1, h2, Nat.not_le, Nat.not_lt,
        decide_eq_false_iff_not, decide_eq_true_eq] <;> omega
  · by_cases h : array.speakers.length < 3 <;>
      simp [validate_speaker_setup, h, Nat.not_lt, decide_eq_true_eq,
        decide_eq_false_iff_not]
    omega
  · by_cases h1 : num_speakers < (order + 1) ^ 2 <;>
      by_cases h2 : num_speakers < (order + 1) ^ 2 * 2 <;>
      simp [validate_hoa_config, h1, h2]

/-- C6 counterexample: a `newobj` source `line~ 10` whose text begins
with `line` wired into `dac~` is classified `Audio` (the both-audio check
fires first), and a non-`newobj` source whose text begins with `line` is
classified `Message` — neither is `Control` as the claim states. -/
theorem c6_counterexample :
    determine_connection_type nodeLineTilde nodeDacDst 0 0 =
      ConnectionType.Audio ∧
    determine_connection_type nodeMsgLine nodePlainDst 0 0 =
      ConnectionType.Message := by
  exact ⟨rfl, rfl⟩

/-- C6 amended: a source whose `object_type` is `newobj` and whose text
begins with `line` or `ramp` yields `Control`, provided the source and
destination are not both audio-bearing (text containing `~` or starting
with `spat5`), in which case the earlier `Audio` rule fires. -/
theorem c6_amended (s d : AudioNode) (o i : Nat)
    (h1 : s.object_type = "newobj")
    (h2 : textStartsWith (s.text.getD "") "line" = true ∨
          textStartsWith (s.text.getD "") "ramp" = true)
    (h3 : ¬((textContains (s.text.getD "") '~' ||
             textStartsWith (s.text.getD "") "spat5") = true ∧
            (textContains (d.text.getD "") '~' ||
             textStartsWith (d.text.getD "") "spat5") = true)) :
    determine_connection_type s d o i = ConnectionType.Control := by
  have h2' : (textStartsWith (s.text.getD "") "line" ||
      textStartsWith (s.text.getD "") "ramp") = true := by
    rcases h2 with h | h <;> simp [h]
  have h3' : ((textContains (s.text.getD "") '~' ||
      textStartsWith (s.text.getD "") "spat5") &&
      (textContains (d.text.getD "") '~' ||
      textStartsWith (d.text.getD "") "spat5")) = false := by
    cases hA : (textContains (s.text.getD "") '~' ||
      textStartsWith (s.text.getD "") "spat5") <;>
      cases hB : (textContains (d.text.getD "") '~' ||
        textStartsWith (d.text.getD "") "spat5") <;> simp_all
  simp [determine_connection_type, h1, h2', h3']

/-- C6 witness: a `newobj` box `line 0 100` into a plain message box is
classified `Control` by the amended rule. -/
theorem c6_amended_witness :
    determine_connection_type nodeNewobjLine nodePlainDst 0 0 =
      ConnectionType.Control :=
  c6_amended nodeNewobjLine nodePlainDst 0 0 rfl (by left; rfl) (by decide)

/-- C7: on the `cycle~`/`noise~`/`dac~` patch the audio sources are
exactly the `cycle~` and `noise~` nodes and the only sink is the `dac~`
node; adding a `flonum → cycle~` line, which classifies as `Control`,
changes neither list. -/
theorem c7_sources_sinks :
    (build_signal_flow_graph patchC7a).map get_audio_sources = .ok [0, 1] ∧
    (build_signal_flow_graph patchC7a).map get_audio_sinks = .ok [2] ∧
    (build_signal_flow_graph patchC7a).map (fun g => g.nodes.map fun n => n.text) =
      .ok [some "cycle~ 440", some "noise~", some "dac~"] ∧
    (build_signal_flow_graph patchC7b).map
        (fun g => g.edges.map fun e => e.conn.connection_type) =
      .ok [.Audio, .Audio, .Control] ∧
    (build_signal_flow_graph patchC7b).map get_audio_sources = .ok [0, 1] ∧
    (build_signal_flow_graph patchC7b).map get_audio_sinks = .ok [2] := by
  decide

theorem closePairWarning_mem (speakers : List Speaker) (i j : Nat)
    (hij : i < j) (hj : j < speakers.length)
    (hclose : |(speakers.getD i default).position.azimuth -
      (speakers.getD j default).position.azimuth| < 10) :
    closePairWarning i j ∈ closePairsWarnings speakers := by
  simp only [closePairsWarnings, List.mem_flatten, List.mem_map,
    List.mem_range]
  refine ⟨_, ⟨i, by omega, rfl⟩, ?_⟩
  simp only [List.mem_filterMap, List.mem_range]
  exact ⟨j, hj, by rw [if_pos hij, if_pos hclose]⟩

/-- C8: `validate_speaker_setup` returns an error result (`is_valid`
false, one error message, no warnings run) exactly when the array has
fewer than 3 speakers; with 3 or more it is valid, has no errors, and
contains a warning for every pair of speakers whose azimuths differ by
less than 10 degrees. -/
theorem c8_validate_speaker_setup (array : SpeakerArray) :
    (array.speakers.length < 3 →
      (validate_speaker_setup array).is_valid = false ∧
      (validate_speaker_setup array).errors =
        ["VBAP requires at least 3 speakers"]) ∧
    (3 ≤ array.speakers.length →
      (validate_speaker_setup array).is_valid = true ∧
      (validate_speaker_setup array).errors = [] ∧
      ∀ i j, i < j → j < array.speakers.length →
        |(array.speakers.getD i default).position.azimuth -
          (array.speakers.getD j default).position.azimuth| < 10 →
        closePairWarning i j ∈ (validate_speaker_setup array).warnings) := by
  constructor
  · intro h
    simp [validate_speaker_setup, h]
  · intro h
    unfold validate_speaker_setup
    rw [if_neg (by omega)]
    exact ⟨rfl, rfl, fun i j hij hj hclose =>
      closePairWarning_mem array.speakers i j hij hj hclose⟩

/-- C8 witness: the two-speaker array fails with the VBAP error; the
three-speaker array validates. -/
theorem c8_witness :
    ((validate_speaker_setup arrTwo).is_valid = false ∧
      (validate_speaker_setup arrTwo).errors =
        ["VBAP requires at least 3 speakers"]) ∧
    ((validate_speaker_setup arrThree).is_valid = true ∧
      (validate_speaker_setup arrThree).errors = [] ∧
      ∀ i j, i < j → j < arrThree.speakers.length →
        |(arrThree.speakers.getD i default).position.azimuth -
          (arrThree.speakers.getD j default).position.azimuth| < 10 →
        closePairWarning i j ∈ (validate_speaker_setup arrThree).warnings) :=
  ⟨(c8_validate_speaker_setup arrTwo).1 (by decide),
   (c8_validate_speaker_setup arrThree).2 (by decide)⟩

theorem determine_connection_type_cases (s d : AudioNode) (o i : Nat) :
    determine_connection_type s d o i = ConnectionType.Audio ∨
    determine_connection_type s d o i = ConnectionType.Control ∨
    determine_connection_type s d o i = ConnectionType.Message := by
  simp only [determine_connection_type]
  split
  · exact Or.inr (Or.inl rfl)
  · split
    · exact Or.inl rfl
    · split
      · exact Or.inr (Or.inl rfl)
      · split
        · exact Or.inr (Or.inl rfl)
        · exact Or.inr (Or.inr rfl)

theorem addEdges_conn_shape (nodes : List AudioNode)
    (nmap : String → Option Nat) :
    ∀ lines es, addEdges nodes nmap lines = .ok es →
      ∀ e ∈ es, ∃ a b o i,
        e.conn.connection_type = determine_connection_type a b o i := by
  intro lines
  induction lines with
  | nil =>
    intro es h e he
    simp only [addEdges] at h
    cases h
    simp at he
  | cons l rest ih =>
    intro es h e he
    simp only [addEdges] at h
    split at h
    · exact Except.noConfusion h
    · split at h
      · exact Except.noConfusion h
      · split at h
        · exact Except.noConfusion h
        · split at h
          · exact Except.noConfusion h
          · split at h
            · exact Except.noConfusion h
            · rename_i x1 sid sport hs x2 did dport hd x3 si hm1 x4 di hm2
                x5 es2 hrec
              have h2 : GraphEdge.mk si di
                  (AudioConnection.mk sport dport
                    (determine_connection_type (nodes.getD si default)
                      (nodes.getD di default) sport dport)) :: es2 = es :=
                Except.ok.inj h
              subst h2
              rcases List.mem_cons.mp he with rfl | hmem
              · exact ⟨nodes.getD si default, nodes.getD di default,
                  sport, dport, rfl⟩
              · exact ih _ hrec e hmem

/-- C9: the connection classifier is total over the three used tags —
every classified connection is `Audio`, `Control` or `Message` — and
consequently no edge of any successfully built graph carries the unused
`Unknown` tag. -/
theorem c9_no_unknown :
    (∀ s d o i,
      determine_connection_type s d o i = ConnectionType.Audio ∨
      determine_connection_type s d o i = ConnectionType.Control ∨
      determine_connection_type s d o i = ConnectionType.Message) ∧
    (∀ p g, build_signal_flow_graph p = .ok g →
      ∀ e ∈ g.edges, e.conn.connection_type ≠ ConnectionType.Unknown) := by
  refine ⟨determine_connection_type_cases, ?_⟩
  intro p g hb e he hu
  have hedges : ∃ es, addEdges (p.patcher.boxes.map nodeOfBox)
      (lookupNode p.patcher.boxes 0) p.patcher.lines = .ok es ∧
      g.edges = es := by
    simp only [build_signal_flow_graph] at hb
    cases hadd : addEdges (p.patcher.boxes.map nodeOfBox)
        (lookupNode p.patcher.boxes 0) p.patcher.lines with
    | error err => rw [hadd] at hb; cases hb
    | ok es => rw [hadd] at hb; cases hb; exact ⟨es, rfl, rfl⟩
  obtain ⟨es, hadd, hes⟩ := hedges
  rw [hes] at he
  obtain ⟨a, b, o, i, hconn⟩ := addEdges_conn_shape _ _ _ _ hadd e he
  rw [hconn] at hu
  rcases determine_connection_type_cases a b o i with h | h | h <;>
    rw [h] at hu <;> exact ConnectionType.noConfusion hu

theorem parse_ok_inversion (v : JsonValue) (id : String) (p : Nat)
    (h : parse_connection_endpoint v = .ok (id, p)) :
    ∃ port rest,
      v = JsonValue.arr (JsonValue.str id :: JsonValue.uint port :: rest) ∧
      p = port % 2 ^ 32 := by
  cases v with
  | arr xs =>
    cases xs with
    | nil => exact Except.noConfusion h
    | cons a tail =>
      cases tail with
      | nil => exact Except.noConfusion h
      | cons b rest =>
        cases a with
        | str s =>
          cases b with
          | uint n =>
            have h2 := Prod.mk.inj (Except.ok.inj h)
            exact ⟨n, rest, by rw [h2.1], h2.2.symm⟩
          | str s2 => exact Except.noConfusion h
          | numOther => exact Except.noConfusion h
          | jbool b2 => exact Except.noConfusion h
          | jnull => exact Except.noConfusion h
          | arr xs2 => exact Except.noConfusion h
          | obj => exact Except.noConfusion h
        | uint n => exact Except.noConfusion h
        | numOther => exact Except.noConfusion h
        | jbool b2 => exact Except.noConfusion h
        | jnull => exact Except.noConfusion h
        | arr xs3 => exact Except.noConfusion h
        | obj => exact Except.noConfusion h
  | str s => exact Except.noConfusion h
  | uint n => exact Except.noConfusion h
  | numOther => exact Except.noConfusion h
  | jbool b2 => exact Except.noConfusion h
  | jnull => exact Except.noConfusion h
  | obj => exact Except.noConfusion h

theorem lookupNode_sound (boxes : List BoxContent) :
    ∀ i s v, lookupNode boxes i s = some v →
      ∃ j, j < boxes.length ∧ v = i + j ∧ (boxes.getD j default).id = s := by
  induction boxes with
  | nil => intro i s v h; exact Option.noConfusion h
  | cons b rest ih =>
    intro i s v h
    simp only [lookupNode] at h
    cases hrec : lookupNode rest (i + 1) s with
    | some w =>
      rw [hrec] at h
      have hw : w = v := Option.some.inj h
      subst hw
      obtain ⟨j, hj, hv, hid⟩ := ih (i + 1) s w hrec
      exact ⟨j + 1, by simp only [List.length_cons]; omega, by omega, hid⟩
    | none =>
      rw [hrec] at h
      by_cases hid : b.id = s
      · rw [if_pos hid] at h
        have hi : i = v := Option.some.inj h
        subst hi
        exact ⟨0, by simp, by omega, hid⟩
      · rw [if_neg hid] at h
        exact Option.noConfusion h

theorem addEdges_ok (nodes : List AudioNode) (nmap : String → Option Nat)
    (hmap : ∀ s v, nmap s = some v →
      v < nodes.length ∧ (nodes.getD v default).id = s) :
    ∀ lines, (∀ l ∈ lines,
        endpointOkProp nmap l.source ∧ endpointOkProp nmap l.destination) →
      ∃ es, addEdges nodes nmap lines = .ok es ∧
        es.length = lines.length ∧
        ∀ k, k < lines.length →
          edgeMatches (lines.getD k default) (es.getD k default) nodes := by
  intro lines
  induction lines with
  | nil =>
    intro _
    exact ⟨[], rfl, rfl, fun k hk => absurd hk (by simp)⟩
  | cons l rest ih =>
    intro hall
    obtain ⟨⟨sid, sport, srest, hsrc, hsm⟩, ⟨did, dport, drest, hdst, hdm⟩⟩ :=
      hall l (List.mem_cons_self l rest)
    obtain ⟨si, hsi⟩ : ∃ si, nmap sid = some si := by
      cases hv : nmap sid with
      | none => exact absurd hv hsm
      | some w => exact ⟨w, rfl⟩
    obtain ⟨di, hdi⟩ : ∃ di, nmap did = some di := by
      cases hv : nmap did with
      | none => exact absurd hv hdm
      | some w => exact ⟨w, rfl⟩
    obtain ⟨es2, hes2, hlen, hmatch⟩ :=
      ih fun l2 hl2 => hall l2 (List.mem_cons_of_mem l hl2)
    have hparse_s :
        parse_connection_endpoint l.source = .ok (sid, sport % 2 ^ 32) := by
      rw [hsrc]; rfl
    have hparse_d :
        parse_connection_endpoint l.destination = .ok (did, dport % 2 ^ 32) := by
      rw [hdst]; rfl
    refine ⟨GraphEdge.mk si di
      (AudioConnection.mk (sport % 2 ^ 32) (dport % 2 ^ 32)
        (determine_connection_type (nodes.getD si default)
          (nodes.getD di default) (sport % 2 ^ 32) (dport % 2 ^ 32))) :: es2,
      ?_, by simpa using hlen, ?_⟩
    · simp only [addEdges, hparse_s, hparse_d, hsi, hdi, hes2]
    · intro k hk
      cases k with
      | zero =>
        intro sid2 sport2 srest2 did2 dport2 drest2 hs2 hd2
        have hs3 : l.source =
            JsonValue.arr (JsonValue.str sid2 :: JsonValue.uint sport2 :: srest2) :=
          hs2
        have hd3 : l.destination =
            JsonValue.arr (JsonValue.str did2 :: JsonValue.uint dport2 :: drest2) :=
          hd2
        rw [hsrc] at hs3
        rw [hdst] at hd3
        simp only [JsonValue.arr.injEq, List.cons.injEq, JsonValue.str.injEq,
          JsonValue.uint.injEq] at hs3 hd3
        obtain ⟨hids, hps, -⟩ := hs3
        obtain ⟨hidd, hpd, -⟩ := hd3
        subst hids
        subst hps
        subst hidd
        subst hpd
        exact ⟨(hmap sid si hsi).1, (hmap sid si hsi).2,
          (hmap did di hdi).1, (hmap did di hdi).2, rfl, rfl⟩
      | succ k2 =>
        simp only [List.length_cons] at hk
        have := hmatch k2 (by omega)
        simpa [List.getD_cons_succ] using this

theorem addEdges_err (nodes : List AudioNode) (nmap : String → Option Nat) :
    ∀ lines, (∃ l ∈ lines,
        ¬ endpointOkProp nmap l.source ∨ ¬ endpointOkProp nmap l.destination) →
      addEdges nodes nmap lines = .error .invalidRouting := by
  intro lines
  induction lines with
  | nil =>
    rintro ⟨l, hl, -⟩
    exact absurd hl (List.not_mem_nil l)
  | cons l rest ih =>
    rintro ⟨l2, hl2, hbad⟩
    rcases List.mem_cons.mp hl2 with rfl | hmem
    · rcases hbad with hbadS | hbadD
      · cases hs : parse_connection_endpoint l2.source with
        | error err =>
          cases err
          simp only [addEdges, hs]
        | ok sp =>
          obtain ⟨sid, sport2⟩ := sp
          obtain ⟨port, srest, hshape, -⟩ := parse_ok_inversion _ _ _ hs
          have hnone : nmap sid = none := by
            cases hv : nmap sid with
            | none => rfl
            | some w =>
              exact absurd ⟨sid, port, srest, hshape, by simp [hv]⟩ hbadS
          cases hd : parse_connection_endpoint l2.destination with
          | error err =>
            cases err
            simp only [addEdges, hs, hd]
          | ok dp =>
            obtain ⟨did, dport2⟩ := dp
            simp only [addEdges, hs, hd, hnone]
      · cases hs : parse_connection_endpoint l2.source with
        | error err =>
          cases err
          simp only [addEdges, hs]
        | ok sp =>
          obtain ⟨sid, sport2⟩ := sp
          cases hd : parse_connection_endpoint l2.destination with
          | error err =>
            cases err
            simp only [addEdges, hs, hd]
          | ok dp =>
            obtain ⟨did, dport2⟩ := dp
            obtain ⟨port, drest, hshape, -⟩ := parse_ok_inversion _ _ _ hd
            have hnone : nmap did = none := by
              cases hv : nmap did with
              | none => rfl
              | some w =>
                exact absurd ⟨did, port, drest, hshape, by simp [hv]⟩ hbadD
            cases hm1 : nmap sid with
            | none => simp only [addEdges, hs, hd, hm1]
            | some si => simp only [addEdges, hs, hd, hm1, hnone]
    · have herr := ih ⟨l2, hmem, hbad⟩
      cases hs : parse_connection_endpoint l.source with
      | error err =>
        cases err
        simp only [addEdges, hs]
      | ok sp =>
        obtain ⟨sid, sport2⟩ := sp
        cases hd : parse_connection_endpoint l.destination with
        | error err =>
          cases err
          simp only [addEdges, hs, hd]
        | ok dp =>
          obtain ⟨did, dport2⟩ := dp
          cases hm1 : nmap sid with
          | none => simp only [addEdges, hs, hd, hm1]
          | some si =>
            cases hm2 : nmap did with
            | none => simp only [addEdges, hs, hd, hm1, hm2]
            | some di => simp only [addEdges, hs, hd, hm1, hm2, herr]

/-- C1 counterexample: three cables the claim mislabels.  A cable whose
source endpoint is the THREE-element array `["obj-1", 0, 99]` is not a
two-element array, so the claim requires `InvalidRouting`, yet the
builder accepts it and returns a one-edge graph (`array.len() >= 2`).  A
cable whose source port is a JSON number that is not a `u64` (for
example `-1`) is numeric and well-formed for the claim, yet the builder
fails with `InvalidRouting` (`as_u64` fails).  A cable with the numeric
port `2^32` is well-formed, yet its outlet is stored as `0`, not
preserved unchanged (`as u32` truncates). -/
theorem c1_counterexample :
    (build_signal_flow_graph patchThreeElem).map (fun g => g.edges.length) =
      .ok 1 ∧
    build_signal_flow_graph patchNonU64Port = .error .invalidRouting ∧
    (build_signal_flow_graph patchBigPort).map
      (fun g => g.edges.map fun e => e.conn.source_outlet) = .ok [0] := by
  refine ⟨by decide, by decide, by decide⟩

/-- C1 amended: if every cable endpoint is a JSON array of AT LEAST two
elements whose first element is a string id present in the node mapping
and whose second is a `u64` number, the builder returns a graph with the
boxes as nodes and exactly one edge per cable, each edge resolved to
in-range node indices whose ids equal the endpoint ids and carrying the
endpoint ports reduced mod `2^32` (the `as u32` cast); if any cable
violates one of these conditions, it returns `InvalidRouting` and no
graph. -/
theorem c1_amended (patch : MaxPatch) :
    ((∀ l ∈ patch.patcher.lines,
        endpointOkProp (lookupNode patch.patcher.boxes 0) l.source ∧
        endpointOkProp (lookupNode patch.patcher.boxes 0) l.destination) →
      ∃ g, build_signal_flow_graph patch = .ok g ∧
        g.nodes = patch.patcher.boxes.map nodeOfBox ∧
        g.edges.length = patch.patcher.lines.length ∧
        ∀ k, k < patch.patcher.lines.length →
          edgeMatches (patch.patcher.lines.getD k default)
            (g.edges.getD k default) g.nodes) ∧
    ((∃ l ∈ patch.patcher.lines,
        ¬ endpointOkProp (lookupNode patch.patcher.boxes 0) l.source ∨
        ¬ endpointOkProp (lookupNode patch.patcher.boxes 0) l.destination) →
      build_signal_flow_graph patch = .error .invalidRouting) := by
  constructor
  · intro hok
    have hmap : ∀ s v, lookupNode patch.patcher.boxes 0 s = some v →
        v < (patch.patcher.boxes.map nodeOfBox).length ∧
        ((patch.patcher.boxes.map nodeOfBox).getD v default).id = s := by
      intro s v hv
      obtain ⟨j, hj, hv0, hid⟩ := lookupNode_sound patch.patcher.boxes 0 s v hv
      have hvj : v = j := by omega
      subst hvj
      refine ⟨by simpa using hj, ?_⟩
      have hjlen : v < (patch.patcher.boxes.map nodeOfBox).length := by
        simpa using hj
      rw [List.getD_eq_getElem _ _ hjlen, List.getElem_map]
      show (patch.patcher.boxes[v]).id = s
      rw [← List.getD_eq_getElem patch.patcher.boxes default hj]
      exact hid
    obtain ⟨es, hes, hlen, hmatch⟩ :=
      addEdges_ok (patch.patcher.boxes.map nodeOfBox)
        (lookupNode patch.patcher.boxes 0) hmap patch.patcher.lines hok
    refine ⟨SignalFlowGraph.mk (patch.patcher.boxes.map nodeOfBox) es,
      ?_, rfl, hlen, hmatch⟩
    simp only [build_signal_flow_graph, hes]
  · rintro ⟨l, hl, hbad⟩
    have herr := addEdges_err (patch.patcher.boxes.map nodeOfBox)
      (lookupNode patch.patcher.boxes 0) patch.patcher.lines ⟨l, hl, hbad⟩
    simp only [build_signal_flow_graph, herr]

/-- C1 witness: the amended positive branch evaluated on the concrete
`cycle~`/`noise~`/`dac~` patch, whose two cables are all well-formed. -/
theorem c1_amended_witness :
    ∃ g, build_signal_flow_graph patchC7a = .ok g ∧
      g.nodes = patchC7a.patcher.boxes.map nodeOfBox ∧
      g.edges.length = patchC7a.patcher.lines.length ∧
      ∀ k, k < patchC7a.patcher.lines.length →
        edgeMatches (patchC7a.patcher.lines.getD k default)
          (g.edges.getD k default) g.nodes :=
  (c1_amended patchC7a).1 (by
    intro l hl
    rcases List.mem_cons.mp hl with rfl | hl2
    · exact ⟨⟨"obj-1", 0, [], rfl, by decide⟩, ⟨"obj-3", 0, [], rfl, by decide⟩⟩
    rcases List.mem_cons.mp hl2 with rfl | hl3
    · exact ⟨⟨"obj-2", 0, [], rfl, by decide⟩, ⟨"obj-3", 1, [], rfl, by decide⟩⟩
    · exact absurd hl3 (List.not_mem_nil l))

/-- C9 witness: the first audio edge of the graph built from the
`cycle~`/`noise~`/`dac~` patch is not tagged `Unknown`. -/
theorem c9_witness :
    ({ source := 0, dest := 2,
       conn := { source_outlet := 0, dest_inlet := 0,
                 connection_type := ConnectionType.Audio } } :
      GraphEdge).conn.connection_type ≠ ConnectionType.Unknown :=
  c9_no_unknown.2 patchC7a graphC7a (by decide)
    { source := 0, dest := 2,
      conn := { source_outlet := 0, dest_inlet := 0,
                connection_type := ConnectionType.Audio } } (by decide)

end Max2SC
